import Mathlib

/-!
Verification of the BLE heart-rate connection controller of the
heart-monitor repository.

The repository contains one controller class (`BluetoothHeartRateMonitor`,
src/unnamed/part_000) plus two near-duplicate React-hook variants
(src/App.js and src/unnamed/part_001) of the same logic.  The shallow
embedding below follows the class in src/unnamed/part_000 statement by
statement; where a claim is decided by a divergence of src/App.js, that
variant's function is embedded separately (`stopScanApp`).

Modelling conventions:
- a notification payload is the decoded byte buffer, a `List Nat` whose
  entries are the byte values; `Buffer.readUInt8` / `Buffer.readUInt16LE`
  become `Option`-returning reads, and the `try/catch` around the decoder
  propagates a failed (out-of-bounds) read to `none`, exactly as the
  RangeError thrown by Buffer is caught and turned into `null`;
- the adapter is modelled by explicit registries inside `World`:
  the list of live characteristic-notification subscriptions, the list of
  live disconnect subscriptions, and the list of armed platform timers;
  `setTimeout` arms a fresh timer id, `clearTimeout` disarms it,
  `subscription.remove()` erases the subscription from its registry;
- asynchronous outcomes that the environment decides (permission grant,
  adapter powered on, connect success, discovery success, adapter
  is-connected answers) are oracle parameters of the operations;
  `_ensureBluetoothOn` is abstracted into the boolean oracle it resolves to;
- each operation returns its successor state together with the list of
  primitive actions it performed, in source order, so that ordering claims
  ("X happens before Y") are statements about the returned trace;
- emissions to the UI callbacks (`onConnectionStateChange`, …) are recorded
  both as actions and as fields of the controller state.
-/

/-- The eleven connection states of the controller (section 3 of the spec,
matching the string constants emitted by the source). -/
inductive ConnState where
  | idle
  | scanning
  | connecting
  | connected
  | disconnected
  | no_device
  | permission_denied
  | bluetooth_off
  | scan_error
  | connect_error
  | monitor_error
deriving DecidableEq

/- ----------------------------------------------------------------
   Notification decoder (src/unnamed/part_000 lines 308-324,
   identical in src/App.js lines 295-311 and part_001 lines 88-104)
   ---------------------------------------------------------------- -/

/-- Buffer.readUInt8(off): returns the byte at `off`, raising (here: `none`)
when the single byte is not inside the buffer. -/
def readUInt8 (buf : List Nat) (off : Nat) : Option Nat :=
  if off + 1 ≤ buf.length then some (buf.getD off 0) else none

/-- Buffer.readUInt16LE(off): little-endian 16-bit read, raising (here:
`none`) when the two bytes are not fully inside the buffer. -/
def readUInt16LE (buf : List Nat) (off : Nat) : Option Nat :=
  if off + 2 ≤ buf.length then some (buf.getD off 0 + 256 * buf.getD (off + 1) 0) else none

/-- The heart-rate decoder `_parseHeartRate` of part_000 (identical
`parseHeartRate` in the two other variants): length guard, flags bit 0
selects 8-bit versus 16-bit little-endian value, range check against the
configured [hrMin, hrMax]; any failed read (the caught RangeError of the
source) yields `none`. -/
def parseHeartRate (hrMin hrMax : Nat) (buf : List Nat) : Option Nat :=
  if buf.length < 2 then none
  else
    match readUInt8 buf 0 with
    | none => none
    | some flags =>
      let is16Bit := flags &&& 1 == 1
      match (if is16Bit then readUInt16LE buf 1 else readUInt8 buf 1) with
      | none => none
      | some value =>
        if value < hrMin || value > hrMax then none else some value

/- ----------------------------------------------------------------
   Controller state machine (class BluetoothHeartRateMonitor,
   src/unnamed/part_000)
   ---------------------------------------------------------------- -/

/-- The mutable fields of the `BluetoothHeartRateMonitor` instance
(constructor, part_000 lines 20-34), plus the last values pushed through
the UI callbacks (`onConnectionStateChange`, `onDeviceNameChange`,
`onHeartRate`), recorded so that emissions are observable state. -/
structure Ctrl where
  connectedDevice : Option Nat
  isScanning : Bool
  scanTimeoutId : Option Nat
  charSubscription : Option Nat
  deviceDisconnectedSubscription : Option Nat
  stateSubscription : Option Nat
  ensureOnTimeoutId : Option Nat
  destroyed : Bool
  connectionState : ConnState
  deviceName : Option String
  heartRate : Option Nat
deriving DecidableEq

/-- The controller state together with the adapter-side resources it leaks
or releases: the registries of live characteristic-notification
subscriptions and disconnect subscriptions, the armed platform timers
(scan timeout), the anonymous 300 ms rescan debounce timer (never stored by
the source, hence a flag), whether the BleManager was destroyed, and a
fresh-id counter. -/
structure World where
  ctrl : Ctrl
  charSubs : List Nat
  disconnSubs : List Nat
  armedTimers : List Nat
  debounceArmed : Bool
  adapterDestroyed : Bool
  nextId : Nat
deriving DecidableEq

/-- Primitive observable actions, recorded in source order by every
operation; used to state ordering claims. -/
inductive Act where
  | removeCharSub
  | removeDisconnSub
  | removeStateSub
  | setDestroyed
  | clearScanTimer
  | clearEnsureTimer
  | adapterStopScan
  | adapterStartScan
  | adapterDestroy
  | armScanTimer
  | armDebounce
  | setScanning (b : Bool)
  | emitState (s : ConnState)
  | emitName
  | emitHeartRate
  | connectAttempt (ok : Bool)
  | discover (ok : Bool)
  | subscribeDisconnect
  | subscribeCharacteristic
  | cancelConnection
  | queryIsConnected
deriving DecidableEq

/-- Outcome oracle for the connect-and-discover sequence. -/
inductive ConnOutcome where
  | success
  | connectFail
  | discoverFail
deriving DecidableEq

/-- The `charSubscription?.remove()` call: erase the held subscription from
the adapter registry (a no-op when none is held). -/
def removeCharSubW (w : World) : World :=
  match w.ctrl.charSubscription with
  | some i => { w with charSubs := w.charSubs.erase i }
  | none => w

/-- The `deviceDisconnectedSubscription?.remove()` call. -/
def removeDisconnSubW (w : World) : World :=
  match w.ctrl.deviceDisconnectedSubscription with
  | some i => { w with disconnSubs := w.disconnSubs.erase i }
  | none => w

/-- `_unsubConnectedDevice` (part_000 lines 246-251): remove and null the
characteristic subscription, then remove and null the disconnect
subscription. -/
def unsubConnectedDevice (w : World) : World :=
  let w1 := removeCharSubW w
  let w2 := { w1 with ctrl := { w1.ctrl with charSubscription := none } }
  let w3 := removeDisconnSubW w2
  { w3 with ctrl := { w3.ctrl with deviceDisconnectedSubscription := none } }

/-- `_clearScanTimeout` (part_000 lines 351-356): if a scan timeout id is
held, clearTimeout it (disarm the platform timer) and null the id. -/
def clearScanTimeoutW (w : World) : World :=
  match w.ctrl.scanTimeoutId with
  | some t => { w with armedTimers := w.armedTimers.erase t,
                       ctrl := { w.ctrl with scanTimeoutId := none } }
  | none => w

/-- `_clearEnsureOnTimeout` (part_000 lines 358-363). -/
def clearEnsureOnTimeoutW (w : World) : World :=
  match w.ctrl.ensureOnTimeoutId with
  | some t => { w with armedTimers := w.armedTimers.erase t,
                       ctrl := { w.ctrl with ensureOnTimeoutId := none } }
  | none => w

/-- `_setScanningState` (part_000 lines 326-331): store the flag and push
it through `onScanningChange`. -/
def setScanningStateW (w : World) (v : Bool) : World :=
  { w with ctrl := { w.ctrl with isScanning := v } }

/-- `_emitConnectionState` (part_000 lines 333-337). -/
def emitConnectionStateW (w : World) (s : ConnState) : World :=
  { w with ctrl := { w.ctrl with connectionState := s } }

/-- `_emitDeviceName` (part_000 lines 339-343). -/
def emitDeviceNameW (w : World) (n : Option String) : World :=
  { w with ctrl := { w.ctrl with deviceName := n } }

/-- `_emitHeartRate` (part_000 lines 345-349). -/
def emitHeartRateW (w : World) (v : Option Nat) : World :=
  { w with ctrl := { w.ctrl with heartRate := v } }

/-- `setTimeout` for the scan timeout: arm a fresh platform timer and
return its id. -/
def armTimer (w : World) : World × Nat :=
  ({ w with armedTimers := w.armedTimers ++ [w.nextId], nextId := w.nextId + 1 },
   w.nextId)

/-- `bleManager.onDeviceDisconnected(...)`: register a fresh disconnect
subscription in the adapter and hand it to the controller field. -/
def subscribeDisconnectW (w : World) : World :=
  { w with disconnSubs := w.disconnSubs ++ [w.nextId],
           nextId := w.nextId + 1,
           ctrl := { w.ctrl with deviceDisconnectedSubscription := some w.nextId } }

/-- `monitorCharacteristicForService(...)`: register a fresh
characteristic-notification subscription and hand it to the controller. -/
def subscribeCharacteristicW (w : World) : World :=
  { w with charSubs := w.charSubs ++ [w.nextId],
           nextId := w.nextId + 1,
           ctrl := { w.ctrl with charSubscription := some w.nextId } }

/-- `stopScan` (part_000 lines 152-163): unsubscribe the connected device,
clear the scan timeout, ask the adapter to stop scanning (errors swallowed),
then set the scanning flag to false. -/
def stopScan (w : World) : World × List Act :=
  let w1 := unsubConnectedDevice w
  let w2 := clearScanTimeoutW w1
  let w3 := setScanningStateW w2 false
  (w3, [Act.removeCharSub, Act.removeDisconnSub, Act.clearScanTimer,
        Act.adapterStopScan, Act.setScanning false])

/-- `stopScan` of the src/App.js variant (lines 130-141): unsubscribe, null
the timeout ref, ask the adapter to stop scanning, then — only if the ref
is still set, which it never is at this point — clearTimeout it, and set
the scanning flag to false. -/
def stopScanApp (w : World) : World × List Act :=
  let w1 := unsubConnectedDevice w
  let w2 := { w1 with ctrl := { w1.ctrl with scanTimeoutId := none } }
  let w3 := if w2.ctrl.scanTimeoutId.isSome then clearScanTimeoutW w2 else w2
  let w4 := setScanningStateW w3 false
  (w4, [Act.removeCharSub, Act.removeDisconnSub, Act.adapterStopScan,
        Act.setScanning false])

/-- `startScan` (part_000 lines 96-150): unsubscribe first; no-op while a
scan is running; permission gate (oracle `p`), adapter-readiness gate
(oracle `b`, the resolution of `_ensureBluetoothOn`); then emit `scanning`,
set the flag, start the adapter scan, clear any stale timeout and arm the
scan timeout. -/
def startScan (w : World) (p b : Bool) : World × List Act :=
  let w1 := unsubConnectedDevice w
  let tr : List Act := [Act.removeCharSub, Act.removeDisconnSub]
  if w1.ctrl.isScanning then (w1, tr)
  else if p = false then
    (emitConnectionStateW w1 .permission_denied,
     tr ++ [Act.emitState .permission_denied])
  else if b = false then
    (emitConnectionStateW w1 .bluetooth_off, tr ++ [Act.emitState .bluetooth_off])
  else
    let w2 := emitConnectionStateW w1 .scanning
    let w3 := setScanningStateW w2 true
    let w4 := clearScanTimeoutW w3
    let w5 := (armTimer w4).1
    let t := (armTimer w4).2
    ({ w5 with ctrl := { w5.ctrl with scanTimeoutId := some t } },
     tr ++ [Act.emitState .scanning, Act.setScanning true, Act.adapterStartScan,
            Act.clearScanTimer, Act.armScanTimer])

/-- `_connectAndMonitor` (part_000 lines 165-191): connect; store the
device; emit the name and `connected`; discover services; re-register the
disconnect subscription (removing any prior one first) and the
characteristic subscription (removing any prior one first).  On a connect
or discovery failure the catch emits `connect_error` and re-enters
`startScan`. -/
def connectAndMonitor (w : World) (devId : Nat) (devName : Option String)
    (o : ConnOutcome) (p b : Bool) : World × List Act :=
  match o with
  | .connectFail =>
    let w1 := emitConnectionStateW w .connect_error
    let r := startScan w1 p b
    (r.1, [Act.connectAttempt false, Act.emitState .connect_error] ++ r.2)
  | .discoverFail =>
    let w1 := { w with ctrl := { w.ctrl with connectedDevice := some devId } }
    let w2 := emitDeviceNameW w1 (some (devName.getD "未知设备"))
    let w3 := emitConnectionStateW w2 .connected
    let w4 := emitConnectionStateW w3 .connect_error
    let r := startScan w4 p b
    (r.1, [Act.connectAttempt true, Act.emitName, Act.emitState .connected,
           Act.discover false, Act.emitState .connect_error] ++ r.2)
  | .success =>
    let w1 := { w with ctrl := { w.ctrl with connectedDevice := some devId } }
    let w2 := emitDeviceNameW w1 (some (devName.getD "未知设备"))
    let w3 := emitConnectionStateW w2 .connected
    let w4 := removeDisconnSubW w3
    let w5 := subscribeDisconnectW w4
    let w6 := removeCharSubW w5
    let w7 := subscribeCharacteristicW w6
    (w7, [Act.connectAttempt true, Act.emitName, Act.emitState .connected,
          Act.discover true, Act.removeDisconnSub, Act.subscribeDisconnect,
          Act.removeCharSub, Act.subscribeCharacteristic])

/-- The scan-result callback (part_000 lines 121-140), device branch:
guarded by the destroyed flag; only a device advertising a name is
pursued; the scan is stopped, `connecting` emitted, then
`_connectAndMonitor` runs with outcome oracle `o`. -/
def scanResult (w : World) (devId : Nat) (devName : Option String)
    (o : ConnOutcome) (p b : Bool) : World × List Act :=
  if w.ctrl.destroyed then (w, [])
  else
    match devName with
    | none => (w, [])
    | some n =>
      let r1 := stopScan w
      let w2 := emitConnectionStateW r1.1 .connecting
      let r2 := connectAndMonitor w2 devId (some n) o p b
      (r2.1, r1.2 ++ [Act.emitState .connecting] ++ r2.2)

/-- The scan-result callback, error branch (part_000 lines 125-132):
guarded by the destroyed flag; stop the scan and emit `scan_error`. -/
def scanResultError (w : World) : World × List Act :=
  if w.ctrl.destroyed then (w, [])
  else
    let r := stopScan w
    (emitConnectionStateW r.1 .scan_error, r.2 ++ [Act.emitState .scan_error])

/-- The scan-timeout callback (part_000 lines 143-149): the platform timer
`t` fires (and is thereby consumed) only while armed; the body returns
early when not scanning or destroyed, otherwise stops the scan and emits
`no_device`. -/
def scanTimeoutFire (w : World) (t : Nat) : World × List Act :=
  if w.armedTimers.contains t then
    let w1 := { w with armedTimers := w.armedTimers.erase t }
    if !w1.ctrl.isScanning || w1.ctrl.destroyed then (w1, [])
    else
      let r := stopScan w1
      (emitConnectionStateW r.1 .no_device, r.2 ++ [Act.emitState .no_device])
  else (w, [])

/-- String.prototype.includes: does `pat` occur as a contiguous substring
of the character list? -/
def includesChars (pat : List Char) : List Char → Bool
  | [] => pat.isEmpty
  | c :: rest => pat.isPrefixOf (c :: rest) || includesChars pat rest

/-- Substring classification of monitor errors
(part_000 lines 198-204): the lower-cased message is ignorable when it
mentions cancelled, device disconnected, gatt, or terminated. -/
def ignorableMonitorError (msg : String) : Bool :=
  let m := msg.toList.map Char.toLower
  includesChars "cancelled".toList m
    || includesChars "device disconnected".toList m
    || includesChars "gatt".toList m
    || includesChars "terminated".toList m

/-- `_handleBleCharacteristic` (part_000 lines 193-218): guarded by the
destroyed flag; an ignorable error is swallowed, a reportable error emits
`monitor_error` (the subscription is not removed); otherwise a present
payload is decoded with the default range 30..220 and an in-range sample
is emitted. -/
def handleBleCharacteristic (w : World) (err : Option String)
    (payload : Option (List Nat)) : World × List Act :=
  if w.ctrl.destroyed then (w, [])
  else
    match err with
    | some msg =>
      if ignorableMonitorError msg then (w, [])
      else (emitConnectionStateW w .monitor_error, [Act.emitState .monitor_error])
    | none =>
      match payload with
      | none => (w, [])
      | some buf =>
        match parseHeartRate 30 220 buf with
        | none => (w, [])
        | some v => (emitHeartRateW w (some v), [Act.emitHeartRate])

/-- `_handleDisconnection` (part_000 lines 220-244): guarded by the
destroyed flag; unsubscribe; if the reported device id is present and the
adapter still considers it connected (oracle `isConn`), cancel the
connection, else stop the scan; then null the connected device and emit
`disconnected`, a null name and a null heart rate. -/
def handleDisconnection (w : World) (devId : Option Nat) (isConn : Bool) :
    World × List Act :=
  if w.ctrl.destroyed then (w, [])
  else
    let w1 := unsubConnectedDevice w
    let r2 : World × List Act :=
      match devId, isConn with
      | some _, true => (w1, [Act.queryIsConnected, Act.cancelConnection])
      | some _, false =>
        let r := stopScan w1
        (r.1, [Act.queryIsConnected] ++ r.2)
      | none, _ =>
        let r := stopScan w1
        r
    let w3 := { r2.1 with ctrl := { r2.1.ctrl with connectedDevice := none } }
    let w4 := emitConnectionStateW w3 .disconnected
    let w5 := emitDeviceNameW w4 none
    let w6 := emitHeartRateW w5 none
    (w6, [Act.removeCharSub, Act.removeDisconnSub] ++ r2.2
         ++ [Act.emitState .disconnected, Act.emitName, Act.emitHeartRate])

/-- `disconnect` (part_000 lines 77-94): unsubscribe; return if no device
is connected; otherwise query the adapter and cancel the connection when
still connected (errors alerted or swallowed, no state effect); the
`finally` nulls the connected device. -/
def disconnect (w : World) (isConn : Bool) : World × List Act :=
  let w1 := unsubConnectedDevice w
  match w1.ctrl.connectedDevice with
  | none => (w1, [Act.removeCharSub, Act.removeDisconnSub])
  | some _ =>
    let r2 : World × List Act :=
      if isConn then (w1, [Act.queryIsConnected, Act.cancelConnection])
      else (w1, [Act.queryIsConnected])
    let w3 := { r2.1 with ctrl := { r2.1.ctrl with connectedDevice := none } }
    (w3, [Act.removeCharSub, Act.removeDisconnSub] ++ r2.2)

/-- `rescan` (part_000 lines 67-75): stop the scan, disconnect, emit a null
name and heart rate, then arm the anonymous 300 ms debounce that will call
`startScan`. -/
def rescan (w : World) (isConn : Bool) : World × List Act :=
  let r1 := stopScan w
  let r2 := disconnect r1.1 isConn
  let w3 := emitDeviceNameW r2.1 none
  let w4 := emitHeartRateW w3 none
  let w5 := { w4 with debounceArmed := true }
  (w5, r1.2 ++ r2.2 ++ [Act.emitName, Act.emitHeartRate, Act.armDebounce])

/-- The 300 ms rescan debounce firing (part_000 lines 72-74): the anonymous
callback has no destroyed-flag guard and simply calls `startScan`. -/
def debounceFire (w : World) (p b : Bool) : World × List Act :=
  if w.debounceArmed then
    let w1 := { w with debounceArmed := false }
    startScan w1 p b
  else (w, [])

/-- `destroy` (part_000 lines 40-65): set the destroyed flag, clear both
timeouts, remove the adapter-state subscription, unsubscribe, stop the
scan, cancel a still-connected device, and destroy the BleManager.  The
debounce timer of a pending `rescan` is not cancelled. -/
def destroy (w : World) (isConn : Bool) : World × List Act :=
  let w1 := { w with ctrl := { w.ctrl with destroyed := true } }
  let w2 := clearScanTimeoutW w1
  let w3 := clearEnsureOnTimeoutW w2
  let w4 := { w3 with ctrl := { w3.ctrl with stateSubscription := none } }
  let w5 := unsubConnectedDevice w4
  let r6 := stopScan w5
  let tr7 : List Act :=
    match r6.1.ctrl.connectedDevice with
    | none => []
    | some _ =>
      if isConn then [Act.queryIsConnected, Act.cancelConnection]
      else [Act.queryIsConnected]
  let w8 := { r6.1 with adapterDestroyed := true }
  (w8, [Act.setDestroyed, Act.clearScanTimer, Act.clearEnsureTimer,
        Act.removeStateSub, Act.removeCharSub, Act.removeDisconnSub]
       ++ r6.2 ++ tr7 ++ [Act.adapterDestroy])

/-- The externally driven events: the four public operations with their
environment oracles, and the asynchronous adapter callbacks. -/
inductive Event where
  | start (p b : Bool)
  | stop
  | disconnectEv (isConn : Bool)
  | rescanEv (isConn : Bool)
  | debounceFireEv (p b : Bool)
  | destroyEv (isConn : Bool)
  | scanErrorEv
  | scanResultEv (devId : Nat) (devName : Option String) (o : ConnOutcome) (p b : Bool)
  | scanTimeoutEv (t : Nat)
  | charNotifyEv (err : Option String) (payload : Option (List Nat))
  | disconnNotifyEv (devId : Option Nat) (isConn : Bool)
deriving DecidableEq

/-- One atomic step of the controller: dispatch an event to its operation
and keep the successor state. -/
def step (w : World) (e : Event) : World :=
  match e with
  | .start p b => (startScan w p b).1
  | .stop => (stopScan w).1
  | .disconnectEv c => (disconnect w c).1
  | .rescanEv c => (rescan w c).1
  | .debounceFireEv p b => (debounceFire w p b).1
  | .destroyEv c => (destroy w c).1
  | .scanErrorEv => (scanResultError w).1
  | .scanResultEv d n o p b => (scanResult w d n o p b).1
  | .scanTimeoutEv t => (scanTimeoutFire w t).1
  | .charNotifyEv e pl => (handleBleCharacteristic w e pl).1
  | .disconnNotifyEv d c => (handleDisconnection w d c).1

/-- The freshly constructed controller (part_000 lines 20-34). -/
def initWorld : World :=
  { ctrl := { connectedDevice := none, isScanning := false, scanTimeoutId := none,
              charSubscription := none, deviceDisconnectedSubscription := none,
              stateSubscription := none, ensureOnTimeoutId := none,
              destroyed := false, connectionState := .idle,
              deviceName := none, heartRate := none },
    charSubs := [], disconnSubs := [], armedTimers := [],
    debounceArmed := false, adapterDestroyed := false, nextId := 0 }

/-- Run an event sequence from the fresh controller. -/
def run (es : List Event) : World :=
  es.foldl step initWorld

/- ----------------------------------------------------------------
   Definitions used by the claim statements
   ---------------------------------------------------------------- -/

/-- Subscription bookkeeping invariant: the adapter registries hold exactly
the subscription the controller currently tracks (hence never more than
one of each kind). -/
def SubInv (w : World) : Prop :=
  w.charSubs = w.ctrl.charSubscription.toList
  ∧ w.disconnSubs = w.ctrl.deviceDisconnectedSubscription.toList

/-- An operation "clears both subscriptions before doing anything else"
when its first two actions are the two subscription removals. -/
def clearsSubsFirst (tr : List Act) : Prop :=
  tr.take 2 = [Act.removeCharSub, Act.removeDisconnSub]

instance (tr : List Act) : Decidable (clearsSubsFirst tr) :=
  inferInstanceAs
    (Decidable (tr.take 2 = [Act.removeCharSub, Act.removeDisconnSub]))

/-- A controller mid-scan: scanning flag set, scan-timeout id 0 held and
its platform timer armed. -/
def wPending : World :=
  { initWorld with
    ctrl := { initWorld.ctrl with
              isScanning := true,
              scanTimeoutId := some 0,
              connectionState := .scanning },
    armedTimers := [0], nextId := 1 }

/-- A controller connected to device 1 with live subscriptions 3 (telemetry
characteristic) and 2 (disconnect), not scanning. -/
def wConnected : World :=
  { ctrl := { connectedDevice := some 1, isScanning := false, scanTimeoutId := none,
              charSubscription := some 3, deviceDisconnectedSubscription := some 2,
              stateSubscription := none, ensureOnTimeoutId := none, destroyed := false,
              connectionState := .connected, deviceName := some "HRM", heartRate := some 72 },
    charSubs := [3], disconnSubs := [2], armedTimers := [], debounceArmed := false,
    adapterDestroyed := false, nextId := 4 }

/- ----------------------------------------------------------------
   Theorems about the decoder (claims C1, C4, C10)
   ---------------------------------------------------------------- -/

/-- C1: for every payload of length at least 2 the decoder selects the
format by bit 0 of byte 0: bit 0 clear gives the unsigned 8-bit value of
byte 1, bit 0 set (with bytes 1..2 present, i.e. length at least 3) gives
the little-endian unsigned 16-bit value of bytes 1..2; in both cases a
value outside [hrMin, hrMax] yields no sample and a value inside the range
is returned as the sample. -/
theorem parseHeartRate_format_selection (hrMin hrMax : Nat) (buf : List Nat) :
    (2 ≤ buf.length → buf.getD 0 0 &&& 1 = 0 →
      parseHeartRate hrMin hrMax buf =
        if buf.getD 1 0 < hrMin || buf.getD 1 0 > hrMax then none
        else some (buf.getD 1 0))
    ∧ (3 ≤ buf.length → buf.getD 0 0 &&& 1 = 1 →
      parseHeartRate hrMin hrMax buf =
        if buf.getD 1 0 + 256 * buf.getD 2 0 < hrMin
            || buf.getD 1 0 + 256 * buf.getD 2 0 > hrMax then none
        else some (buf.getD 1 0 + 256 * buf.getD 2 0)) := by
  constructor
  · intro hlen hbit
    rcases buf with _ | ⟨b0, _ | ⟨b1, rest⟩⟩
    · simp at hlen
    · simp at hlen
    · simp only [List.getD_cons_zero, List.getD_cons_succ] at hbit ⊢
      simp [parseHeartRate, readUInt8, readUInt16LE, hbit]
  · intro hlen hbit
    rcases buf with _ | ⟨b0, _ | ⟨b1, _ | ⟨b2, rest⟩⟩⟩
    · simp at hlen
    · simp at hlen
    · simp at hlen
    · simp only [List.getD_cons_zero, List.getD_cons_succ] at hbit ⊢
      simp [parseHeartRate, readUInt8, readUInt16LE, hbit]

/-- Witness for C1: scenario A, payload [0x00, 0x4B] decodes to 75, and
scenario B, payload [0x01, 0x4B, 0x00] decodes to 75, at the default
range 30..220. -/
theorem parseHeartRate_format_selection_witness :
    parseHeartRate 30 220 [0, 75] = some 75
    ∧ parseHeartRate 30 220 [1, 75, 0] = some 75 := by
  constructor
  · have h := (parseHeartRate_format_selection 30 220 [0, 75]).1 (by decide) (by decide)
    simpa using h
  · have h := (parseHeartRate_format_selection 30 220 [1, 75, 0]).2 (by decide) (by decide)
    simpa using h

/-- C4: a payload shorter than 2 bytes yields no sample, and an input whose
decoding raises (the only raise point of the source body is the
out-of-bounds 16-bit read, i.e. flags bit 0 set with fewer than 3 bytes)
also yields no sample; no error is signalled in either case (the function
total-returns `none`). -/
theorem parseHeartRate_malformed_no_sample (hrMin hrMax : Nat) (buf : List Nat) :
    (buf.length < 2 → parseHeartRate hrMin hrMax buf = none)
    ∧ (buf.getD 0 0 &&& 1 = 1 → buf.length < 3 →
        parseHeartRate hrMin hrMax buf = none) := by
  constructor
  · intro hlen
    simp [parseHeartRate, hlen]
  · intro hbit hlen
    rcases buf with _ | ⟨b0, _ | ⟨b1, _ | ⟨b2, rest⟩⟩⟩
    · simp [parseHeartRate]
    · simp [parseHeartRate]
    · simp only [List.getD_cons_zero] at hbit
      simp [parseHeartRate, readUInt8, readUInt16LE, hbit]
    · simp at hlen; omega

/-- Witness for C4: the one-byte payload [200] and the two-byte 16-bit
flagged payload [1, 75] both yield no sample. -/
theorem parseHeartRate_malformed_no_sample_witness :
    parseHeartRate 30 220 [200] = none ∧ parseHeartRate 30 220 [1, 75] = none := by
  constructor
  · exact (parseHeartRate_malformed_no_sample 30 220 [200]).1 (by decide)
  · exact (parseHeartRate_malformed_no_sample 30 220 [1, 75]).2 (by decide) (by decide)

/-- C10: every 2-byte payload whose flags bit 0 is set yields no sample:
the 16-bit read at offset 1 is out of bounds, the raise is caught, and the
decoder returns `none`, although the flags byte claims a 16-bit value. -/
theorem parseHeartRate_two_byte_sixteen_bit (hrMin hrMax b0 b1 : Nat)
    (hbit : b0 &&& 1 = 1) :
    parseHeartRate hrMin hrMax [b0, b1] = none := by
  simp [parseHeartRate, readUInt8, readUInt16LE, hbit]

/-- Witness for C10: payload [5, 90] (flags 0x05, bit 0 set) yields no
sample. -/
theorem parseHeartRate_two_byte_sixteen_bit_witness :
    parseHeartRate 30 220 [5, 90] = none :=
  parseHeartRate_two_byte_sixteen_bit 30 220 5 90 (by decide)

/- ----------------------------------------------------------------
   Subscription bookkeeping (claim C2)
   ---------------------------------------------------------------- -/

lemma subInv_initWorld : SubInv initWorld :=
  ⟨rfl, rfl⟩

lemma subInv_emitConnectionState {w : World} {s : ConnState} (h : SubInv w) :
    SubInv (emitConnectionStateW w s) :=
  ⟨h.1, h.2⟩

lemma subInv_emitDeviceName {w : World} {n : Option String} (h : SubInv w) :
    SubInv (emitDeviceNameW w n) :=
  ⟨h.1, h.2⟩

lemma subInv_emitHeartRate {w : World} {v : Option Nat} (h : SubInv w) :
    SubInv (emitHeartRateW w v) :=
  ⟨h.1, h.2⟩

lemma subInv_setScanningState {w : World} {v : Bool} (h : SubInv w) :
    SubInv (setScanningStateW w v) :=
  ⟨h.1, h.2⟩

lemma subInv_clearScanTimeout {w : World} (h : SubInv w) :
    SubInv (clearScanTimeoutW w) := by
  unfold clearScanTimeoutW
  split
  · exact ⟨h.1, h.2⟩
  · exact h

lemma subInv_clearEnsureOnTimeout {w : World} (h : SubInv w) :
    SubInv (clearEnsureOnTimeoutW w) := by
  unfold clearEnsureOnTimeoutW
  split
  · exact ⟨h.1, h.2⟩
  · exact h

lemma subInv_unsub {w : World} (h : SubInv w) :
    SubInv (unsubConnectedDevice w) := by
  obtain ⟨h1, h2⟩ := h
  unfold unsubConnectedDevice removeCharSubW removeDisconnSubW
  cases hc : w.ctrl.charSubscription <;> cases hd : w.ctrl.deviceDisconnectedSubscription <;>
    simp_all [SubInv, List.erase_cons_head]

lemma subInv_stopScan {w : World} (h : SubInv w) : SubInv (stopScan w).1 :=
  subInv_setScanningState (subInv_clearScanTimeout (subInv_unsub h))

lemma subInv_startScan {w : World} {p b : Bool} (h : SubInv w) :
    SubInv (startScan w p b).1 := by
  have h1 := subInv_unsub h
  simp only [startScan]
  split
  · exact h1
  · split
    · exact subInv_emitConnectionState h1
    · split
      · exact subInv_emitConnectionState h1
      · exact ⟨(subInv_clearScanTimeout (subInv_setScanningState
          (subInv_emitConnectionState h1))).1,
          (subInv_clearScanTimeout (subInv_setScanningState
          (subInv_emitConnectionState h1))).2⟩

lemma subInv_resubscribeDisconnect {w : World} (h : SubInv w) :
    SubInv (subscribeDisconnectW (removeDisconnSubW w)) := by
  obtain ⟨h1, h2⟩ := h
  unfold subscribeDisconnectW removeDisconnSubW
  cases hd : w.ctrl.deviceDisconnectedSubscription <;>
    simp_all [SubInv, List.erase_cons_head]

lemma subInv_resubscribeCharacteristic {w : World} (h : SubInv w) :
    SubInv (subscribeCharacteristicW (removeCharSubW w)) := by
  obtain ⟨h1, h2⟩ := h
  unfold subscribeCharacteristicW removeCharSubW
  cases hc : w.ctrl.charSubscription <;>
    simp_all [SubInv, List.erase_cons_head]

lemma subInv_connectAndMonitor {w : World} {d : Nat} {n : Option String}
    {o : ConnOutcome} {p b : Bool} (h : SubInv w) :
    SubInv (connectAndMonitor w d n o p b).1 := by
  cases o
  · exact subInv_resubscribeCharacteristic (subInv_resubscribeDisconnect ⟨h.1, h.2⟩)
  · exact subInv_startScan (subInv_emitConnectionState h)
  · exact subInv_startScan ⟨h.1, h.2⟩

lemma subInv_scanResult {w : World} {d : Nat} {n : Option String}
    {o : ConnOutcome} {p b : Bool} (h : SubInv w) :
    SubInv (scanResult w d n o p b).1 := by
  simp only [scanResult]
  split
  · exact h
  · cases n with
    | none => exact h
    | some s =>
      exact subInv_connectAndMonitor (subInv_emitConnectionState (subInv_stopScan h))

lemma subInv_scanResultError {w : World} (h : SubInv w) :
    SubInv (scanResultError w).1 := by
  simp only [scanResultError]
  split
  · exact h
  · exact subInv_emitConnectionState (subInv_stopScan h)

lemma subInv_scanTimeoutFire {w : World} {t : Nat} (h : SubInv w) :
    SubInv (scanTimeoutFire w t).1 := by
  simp only [scanTimeoutFire]
  split
  · split
    · exact ⟨h.1, h.2⟩
    · exact subInv_emitConnectionState (subInv_stopScan ⟨h.1, h.2⟩)
  · exact h

lemma subInv_handleBleCharacteristic {w : World} {err : Option String}
    {pl : Option (List Nat)} (h : SubInv w) :
    SubInv (handleBleCharacteristic w err pl).1 := by
  unfold handleBleCharacteristic
  split
  · exact h
  · split
    · split
      · exact h
      · exact subInv_emitConnectionState h
    · split
      · exact h
      · split
        · exact h
        · exact subInv_emitHeartRate h

lemma subInv_handleDisconnection {w : World} {dev : Option Nat} {c : Bool}
    (h : SubInv w) :
    SubInv (handleDisconnection w dev c).1 := by
  have h1 := subInv_unsub h
  simp only [handleDisconnection]
  split
  · exact h
  · cases dev with
    | some i =>
      cases c
      · exact subInv_emitHeartRate (subInv_emitDeviceName (subInv_emitConnectionState
          ⟨(subInv_stopScan h1).1, (subInv_stopScan h1).2⟩))
      · exact subInv_emitHeartRate (subInv_emitDeviceName (subInv_emitConnectionState
          ⟨h1.1, h1.2⟩))
    | none =>
      exact subInv_emitHeartRate (subInv_emitDeviceName (subInv_emitConnectionState
        ⟨(subInv_stopScan h1).1, (subInv_stopScan h1).2⟩))

lemma subInv_disconnect {w : World} {c : Bool} (h : SubInv w) :
    SubInv (disconnect w c).1 := by
  have h1 := subInv_unsub h
  simp only [disconnect]
  split
  · exact h1
  · cases c
    · exact ⟨h1.1, h1.2⟩
    · exact ⟨h1.1, h1.2⟩

lemma subInv_rescan {w : World} {c : Bool} (h : SubInv w) :
    SubInv (rescan w c).1 := by
  have h2 := @subInv_disconnect (stopScan w).1 c (subInv_stopScan h)
  exact ⟨h2.1, h2.2⟩

lemma subInv_debounceFire {w : World} {p b : Bool} (h : SubInv w) :
    SubInv (debounceFire w p b).1 := by
  simp only [debounceFire]
  split
  · exact subInv_startScan ⟨h.1, h.2⟩
  · exact h

lemma subInv_destroy {w : World} {c : Bool} (h : SubInv w) :
    SubInv (destroy w c).1 := by
  have h3 := subInv_clearEnsureOnTimeout (subInv_clearScanTimeout
    (⟨h.1, h.2⟩ : SubInv { w with ctrl := { w.ctrl with destroyed := true } }))
  have h4 : SubInv
      { clearEnsureOnTimeoutW (clearScanTimeoutW
          { w with ctrl := { w.ctrl with destroyed := true } }) with
        ctrl := { (clearEnsureOnTimeoutW (clearScanTimeoutW
          { w with ctrl := { w.ctrl with destroyed := true } })).ctrl with
                  stateSubscription := none } } := ⟨h3.1, h3.2⟩
  have h6 := subInv_stopScan (subInv_unsub h4)
  exact ⟨h6.1, h6.2⟩

lemma subInv_step {w : World} {e : Event} (h : SubInv w) : SubInv (step w e) := by
  cases e with
  | start p b => exact subInv_startScan h
  | stop => exact subInv_stopScan h
  | disconnectEv c => exact subInv_disconnect h
  | rescanEv c => exact subInv_rescan h
  | debounceFireEv p b => exact subInv_debounceFire h
  | destroyEv c => exact subInv_destroy h
  | scanErrorEv => exact subInv_scanResultError h
  | scanResultEv d n o p b => exact subInv_scanResult h
  | scanTimeoutEv t => exact subInv_scanTimeoutFire h
  | charNotifyEv er pl => exact subInv_handleBleCharacteristic h
  | disconnNotifyEv d c => exact subInv_handleDisconnection h

lemma subInv_foldl (l : List Event) (w : World) (h : SubInv w) :
    SubInv (l.foldl step w) := by
  induction l generalizing w with
  | nil => exact h
  | cons e t ih => exact ih _ (subInv_step h)

/-- C2: after every sequence of controller operations and adapter events
the adapter holds exactly the subscription the controller tracks — hence
at most one heart-rate notification subscription and at most one
disconnect subscription are registered at a time, and no duplicate
subscription is ever left registered. -/
theorem subscription_uniqueness (es : List Event) :
    (run es).charSubs = (run es).ctrl.charSubscription.toList
    ∧ (run es).disconnSubs = (run es).ctrl.deviceDisconnectedSubscription.toList
    ∧ (run es).charSubs.length ≤ 1
    ∧ (run es).disconnSubs.length ≤ 1 := by
  have h : SubInv (run es) := subInv_foldl es initWorld subInv_initWorld
  obtain ⟨h1, h2⟩ := h
  refine ⟨h1, h2, ?_, ?_⟩
  · rw [h1]; cases (run es).ctrl.charSubscription <;> simp
  · rw [h2]; cases (run es).ctrl.deviceDisconnectedSubscription <;> simp

/- ----------------------------------------------------------------
   Monitor-error classification (claim C7)
   ---------------------------------------------------------------- -/

/-- C7: when the notification subscription reports an error and the
controller is not destroyed, the state becomes `monitor_error` exactly when
the message is not one of the ignorable disconnect-adjacent kinds
(cancelled / device disconnected / gatt / terminated); an ignorable error
leaves the state untouched, and in both cases the characteristic
subscription is left alive (neither the registry nor the held subscription
changes). -/
theorem monitor_error_classification (w : World) (msg : String)
    (pl : Option (List Nat)) (hdes : w.ctrl.destroyed = false) :
    (handleBleCharacteristic w (some msg) pl).1 =
      (if ignorableMonitorError msg then w
       else emitConnectionStateW w ConnState.monitor_error)
    ∧ (handleBleCharacteristic w (some msg) pl).1.charSubs = w.charSubs
    ∧ (handleBleCharacteristic w (some msg) pl).1.ctrl.charSubscription
        = w.ctrl.charSubscription := by
  refine ⟨?_, ?_, ?_⟩ <;>
    · simp only [handleBleCharacteristic, hdes]
      cases hig : ignorableMonitorError msg <;> simp [hig, emitConnectionStateW]

/-- Witness for C7: the reportable message "unknown failure" turns the
fresh controller's state into `monitor_error`. -/
theorem monitor_error_classification_witness :
    (handleBleCharacteristic initWorld (some "unknown failure") none).1 =
      emitConnectionStateW initWorld ConnState.monitor_error
    ∧ ignorableMonitorError "unknown failure" = false := by
  have hig : ignorableMonitorError "unknown failure" = false := by decide
  have h := (monitor_error_classification initWorld "unknown failure" none rfl).1
  rw [h]
  exact ⟨by simp [hig], hig⟩

/- ----------------------------------------------------------------
   stopScan idempotence (claim C9)
   ---------------------------------------------------------------- -/

/-- Counterexample to C9 as stated: on a connected, non-scanning
controller, `stopScan` is not a no-op — it strips both live
subscriptions (the notification one and the disconnect one), from the
controller fields and from the adapter registries alike. -/
theorem stopScan_when_connected_not_noop :
    wConnected.ctrl.isScanning = false
    ∧ wConnected.ctrl.charSubscription = some 3
    ∧ wConnected.ctrl.deviceDisconnectedSubscription = some 2
    ∧ (stopScan wConnected).1.ctrl.charSubscription = none
    ∧ (stopScan wConnected).1.ctrl.deviceDisconnectedSubscription = none
    ∧ (stopScan wConnected).1.charSubs = []
    ∧ (stopScan wConnected).1.disconnSubs = []
    ∧ (stopScan wConnected).1 ≠ wConnected := by decide

/-- C9 amended: `stopScan` on any controller that is not scanning leaves
the connection state, the connected device, the device name and the heart
rate unchanged and the scanning flag false, while unconditionally clearing
both the notification and the disconnect subscription; when the controller
additionally holds no subscriptions and no scan timeout, the call is a
complete no-op on the state. -/
theorem stopScan_when_not_scanning (w : World)
    (hs : w.ctrl.isScanning = false) :
    (stopScan w).1.ctrl.connectionState = w.ctrl.connectionState
    ∧ (stopScan w).1.ctrl.connectedDevice = w.ctrl.connectedDevice
    ∧ (stopScan w).1.ctrl.deviceName = w.ctrl.deviceName
    ∧ (stopScan w).1.ctrl.heartRate = w.ctrl.heartRate
    ∧ (stopScan w).1.ctrl.isScanning = false
    ∧ (stopScan w).1.ctrl.charSubscription = none
    ∧ (stopScan w).1.ctrl.deviceDisconnectedSubscription = none
    ∧ (w.ctrl.charSubscription = none → w.ctrl.deviceDisconnectedSubscription = none →
        w.ctrl.scanTimeoutId = none → (stopScan w).1 = w) := by
  rcases w with ⟨⟨cd, sc, sti, csub, dsub, ssub, eoi, des, cst, dnm, hrt⟩,
    cS, dS, aT, dA, aD, nI⟩
  dsimp only at hs
  subst hs
  refine ⟨?_, ?_, ?_, ?_, ?_, ?_, ?_, ?_⟩ <;>
    cases csub <;> cases dsub <;> cases sti <;>
      first
        | rfl
        | (intro h1 h2 h3
           first
             | rfl
             | simp_all [stopScan, unsubConnectedDevice, removeCharSubW,
                 removeDisconnSubW, clearScanTimeoutW, setScanningStateW])

/-- Witness for the amended C9: on the connected controller the
connection state and device name survive `stopScan`, and on the fresh
controller the call is the identity. -/
theorem stopScan_when_not_scanning_witness :
    (stopScan wConnected).1.ctrl.connectionState = wConnected.ctrl.connectionState
    ∧ (stopScan wConnected).1.ctrl.deviceName = wConnected.ctrl.deviceName
    ∧ (stopScan wConnected).1.ctrl.deviceDisconnectedSubscription = none
    ∧ (stopScan initWorld).1 = initWorld := by
  have h := stopScan_when_not_scanning wConnected rfl
  have h0 := stopScan_when_not_scanning initWorld rfl
  exact ⟨h.1, h.2.2.1, h.2.2.2.2.2.2.1, h0.2.2.2.2.2.2.2 rfl rfl rfl⟩

/- ----------------------------------------------------------------
   Scan-timeout cancellation (claim C3)
   ---------------------------------------------------------------- -/

/-- C3 at the src/App.js variant: stopping a scan with a pending timeout
nulls the ref and resets the scanning flag, but the platform timer stays
armed, because the ref is nulled before the clearTimeout guard; the
part_000 `stopScan` disarms the timer on the same state. -/
theorem stopScanApp_timer_not_cancelled :
    wPending.ctrl.isScanning = true
    ∧ wPending.armedTimers = [0]
    ∧ (stopScanApp wPending).1.ctrl.scanTimeoutId = none
    ∧ (stopScanApp wPending).1.ctrl.isScanning = false
    ∧ (stopScanApp wPending).1.armedTimers = [0]
    ∧ (stopScan wPending).1.armedTimers = [] := by decide

/- ----------------------------------------------------------------
   Destroyed controller and the rescan debounce (claim C8)
   ---------------------------------------------------------------- -/

/-- C8 at the failing input: after `rescan` followed by `destroy`, the
debounce timer is still armed (destroy does not cancel it), and when it
fires its callback runs `startScan` without any destroyed-flag check, so
the destroyed controller observably starts scanning again; by contrast a
characteristic notification arriving after destroy is a no-op. -/
theorem debounce_fires_after_destroy :
    (run [Event.rescanEv false, Event.destroyEv false]).ctrl.destroyed = true
    ∧ (run [Event.rescanEv false, Event.destroyEv false]).debounceArmed = true
    ∧ (run [Event.rescanEv false, Event.destroyEv false,
        Event.debounceFireEv true true]).ctrl.isScanning = true
    ∧ (run [Event.rescanEv false, Event.destroyEv false,
        Event.debounceFireEv true true]).ctrl.connectionState = ConnState.scanning
    ∧ (run [Event.rescanEv false, Event.destroyEv false,
        Event.debounceFireEv true true]).ctrl.destroyed = true
    ∧ step (run [Event.rescanEv false, Event.destroyEv false])
        (Event.charNotifyEv none (some [0, 75]))
      = run [Event.rescanEv false, Event.destroyEv false] := by decide

/- ----------------------------------------------------------------
   Unsubscribe-first ordering (claim C5)
   ---------------------------------------------------------------- -/

lemma removeCharSubW_ctrl (w : World) : (removeCharSubW w).ctrl = w.ctrl := by
  unfold removeCharSubW
  split <;> rfl

lemma removeDisconnSubW_ctrl (w : World) :
    (removeDisconnSubW w).ctrl = w.ctrl := by
  unfold removeDisconnSubW
  split <;> rfl

/-- Counterexample to C5 as stated: `destroy` does not clear the two
subscriptions before doing anything else — its first actions set the
destroyed flag, cancel the two timeouts and remove the adapter-state
subscription. -/
theorem destroy_not_clearing_subs_first :
    ¬ clearsSubsFirst (destroy initWorld false).2 := by decide

/-- C5 amended: `startScan`, `disconnect` and `rescan` clear both
subscriptions as their first actions, the disconnect handler does so as
its first actions once past the destroyed-flag guard, and `destroy` does
so only after setting the destroyed flag, cancelling its two timeouts and
removing the adapter-state subscription; in the connect sequence each
removal precedes the corresponding new subscription. -/
theorem unsubscribe_precedes_resubscribe (w : World) (p b c : Bool)
    (dev : Option Nat) (d : Nat) (n : Option String) :
    clearsSubsFirst (startScan w p b).2
    ∧ clearsSubsFirst (disconnect w c).2
    ∧ clearsSubsFirst (rescan w c).2
    ∧ (w.ctrl.destroyed = false → clearsSubsFirst (handleDisconnection w dev c).2)
    ∧ (destroy w c).2.take 6 =
        [Act.setDestroyed, Act.clearScanTimer, Act.clearEnsureTimer,
         Act.removeStateSub, Act.removeCharSub, Act.removeDisconnSub]
    ∧ (connectAndMonitor w d n ConnOutcome.success p b).2.indexOf Act.removeDisconnSub
        < (connectAndMonitor w d n ConnOutcome.success p b).2.indexOf
            Act.subscribeDisconnect
    ∧ (connectAndMonitor w d n ConnOutcome.success p b).2.indexOf Act.removeCharSub
        < (connectAndMonitor w d n ConnOutcome.success p b).2.indexOf
            Act.subscribeCharacteristic := by
  refine ⟨?_, ?_, ?_, ?_, ?_, ?_, ?_⟩
  · show (startScan w p b).2.take 2 = _
    simp only [startScan]
    split
    · rfl
    · split
      · rfl
      · split
        · rfl
        · rfl
  · show (disconnect w c).2.take 2 = _
    simp only [disconnect]
    split
    · rfl
    · rfl
  · rfl
  · intro hdes
    show (handleDisconnection w dev c).2.take 2 = _
    simp only [handleDisconnection, hdes]
    rfl
  · rfl
  · have h : (connectAndMonitor w d n ConnOutcome.success p b).2 =
        [Act.connectAttempt true, Act.emitName, Act.emitState ConnState.connected,
         Act.discover true, Act.removeDisconnSub, Act.subscribeDisconnect,
         Act.removeCharSub, Act.subscribeCharacteristic] := rfl
    rw [h]
    decide
  · have h : (connectAndMonitor w d n ConnOutcome.success p b).2 =
        [Act.connectAttempt true, Act.emitName, Act.emitState ConnState.connected,
         Act.discover true, Act.removeDisconnSub, Act.subscribeDisconnect,
         Act.removeCharSub, Act.subscribeCharacteristic] := rfl
    rw [h]
    decide

/-- Witness for the amended C5, at the fresh controller. -/
theorem unsubscribe_precedes_resubscribe_witness :
    clearsSubsFirst (startScan initWorld true true).2
    ∧ clearsSubsFirst (handleDisconnection initWorld (some 1) false).2 := by
  have h := unsubscribe_precedes_resubscribe initWorld true true false (some 1) 1 none
  exact ⟨h.1, h.2.2.2.1 rfl⟩

/- ----------------------------------------------------------------
   The `connected` emission versus discovery (claim C6)
   ---------------------------------------------------------------- -/

/-- Counterexample to C6 as stated: when discovery fails after a
successful connect, the controller has already emitted `connected` —
discovery never succeeded and no subscription was established, yet the
trace contains the `connected` emission (followed by `connect_error`). -/
theorem connected_emitted_without_discovery :
    ((connectAndMonitor initWorld 1 (some "HRM") ConnOutcome.discoverFail
        true true).2.contains (Act.emitState ConnState.connected) = true)
    ∧ ((connectAndMonitor initWorld 1 (some "HRM") ConnOutcome.discoverFail
        true true).2.contains (Act.discover true) = false)
    ∧ ((connectAndMonitor initWorld 1 (some "HRM") ConnOutcome.discoverFail
        true true).2.contains Act.subscribeCharacteristic = false)
    ∧ ((connectAndMonitor initWorld 1 (some "HRM") ConnOutcome.discoverFail
        true true).2.contains (Act.emitState ConnState.connect_error) = true) := by
  decide

/-- C6 amended: the controller emits `connected` as soon as the peripheral
connect succeeds and the device name is recorded — before service
discovery and before the notification and disconnect subscriptions are
established; on a fully successful sequence it ends connected with both
subscriptions and the name set, while on a discovery failure the
`connected` emission has already happened and `connect_error` follows. -/
theorem connected_emitted_after_connect_before_discovery (w : World) (d : Nat)
    (n : Option String) (p b : Bool) :
    (connectAndMonitor w d n ConnOutcome.success p b).2 =
      [Act.connectAttempt true, Act.emitName, Act.emitState ConnState.connected,
       Act.discover true, Act.removeDisconnSub, Act.subscribeDisconnect,
       Act.removeCharSub, Act.subscribeCharacteristic]
    ∧ (connectAndMonitor w d n ConnOutcome.success p b).1.ctrl.connectionState
        = ConnState.connected
    ∧ (connectAndMonitor w d n ConnOutcome.success p b).1.ctrl.charSubscription.isSome
        = true
    ∧ (connectAndMonitor w d n
        ConnOutcome.success p b).1.ctrl.deviceDisconnectedSubscription.isSome = true
    ∧ (connectAndMonitor w d n ConnOutcome.success p b).1.ctrl.deviceName.isSome
        = true
    ∧ (∃ rest, (connectAndMonitor w d n ConnOutcome.discoverFail p b).2 =
        [Act.connectAttempt true, Act.emitName, Act.emitState ConnState.connected,
         Act.discover false, Act.emitState ConnState.connect_error] ++ rest) := by
  refine ⟨rfl, ?_, ?_, ?_, ?_, ⟨_, rfl⟩⟩ <;>
    simp [connectAndMonitor, subscribeCharacteristicW, subscribeDisconnectW,
      removeCharSubW_ctrl, removeDisconnSubW_ctrl, emitConnectionStateW,
      emitDeviceNameW]
